import Mathlib

/-!
Verification of the notecart client-side layer (src/static/js/api.js and
src/static/js/dashboard.js) against its natural-language specification.

The JavaScript is shallowly embedded: JSON payload objects become
association lists of string keys, the transport `request` becomes a
function from a fetch outcome (`Except` models a rejected vs resolved
promise) to a call outcome, and the controller event handlers become
pure functions — the notes editor in particular becomes a step function
on an explicit state record, with reachability as an inductive predicate.

Definitions come first, theorems afterwards.
-/

namespace NoteCart

/-! ## JSON-ish values and object operations

A parsed response body is a JavaScript object: a finite map from string
keys to values, embedded as an association list looked up front-to-back.
`Object.assign(target, {k: v})` is `setField`: it overwrites the value at
an existing key in place, else appends the key.
-/

inductive JVal where
  | str (s : String)
  | num (n : Int)
  | bool (b : Bool)
  | null
deriving DecidableEq, Repr

abbrev JObj := List (String × JVal)

def getField : JObj → String → Option JVal
  | [], _ => none
  | (k', v) :: rest, k => if k' = k then some v else getField rest k

def setField : JObj → String → JVal → JObj
  | [], k, v => [(k, v)]
  | (k', v') :: rest, k, v =>
      if k' = k then (k, v) :: rest else (k', v') :: setField rest k v

/-! ## Transport (`api.request` in src/static/js/api.js)

`request(path, method, data)` awaits `fetch`; the fetch either rejects
(network/DNS failure — modelled as `Except.error`) or resolves with an
HTTP response carrying a status and a body that may or may not be valid
JSON (`body = none` models a body that fails to parse; the code replaces
it by an empty object via the catch on `res.json()`). The fetch
`Response.ok` accessor is true exactly for statuses 200–299. The promise
returned by `request` is again an `Except`: `Except.error` means the
promise rejects (an exception escapes to the caller), `Except.ok` means
it resolves to a Result object.

Crucially, the source has no try/catch around `await fetch(...)`; only
`res.json()` carries a catch. A rejected fetch therefore propagates.
-/

structure HttpResponse where
  status : Nat
  body : Option JObj
deriving DecidableEq, Repr

/-- The WHATWG fetch `Response.ok` accessor: status in the range 200–299. -/
def HttpResponse.resOk (r : HttpResponse) : Bool :=
  200 ≤ r.status && r.status ≤ 299

/-- Outcome of `await fetch(...)`: `.error` = the fetch promise rejected
(network failure), `.ok` = an HTTP response was received. -/
abbrev FetchOutcome := Except Unit HttpResponse

/-- The response-processing part of `request`: the body is parsed with
an empty-object fallback, then the transport ok tag is assigned onto the
parsed object, overwriting a same-named field; a rejected fetch
propagates (no surrounding try/catch in the source). -/
def request (outcome : FetchOutcome) : Except Unit JObj :=
  match outcome with
  | .error e => .error e
  | .ok res =>
      let json := res.body.getD []
      .ok (setField json "ok" (.bool res.resOk))

/-! ## Request construction

The option-building half of `request`: the method, the `/api` prefix on
the URL, the Accept header, and the body handling (`FormData` sent raw
with no explicit content type, any other payload JSON-serialized with a
JSON content type, no body at all when `data` is null/undefined). -/

inductive ReqData where
  | jsonData (o : JObj)
  | formData (fields : List (String × String))
deriving DecidableEq, Repr

structure IssuedReq where
  method : String
  url : String
  acceptJson : Bool
  contentTypeJson : Bool
  body : Option ReqData
deriving DecidableEq, Repr

def buildReq (path : String) (method : String) (data : Option ReqData) : IssuedReq :=
  match data with
  | none =>
      { method := method, url := "/api" ++ path, acceptJson := true,
        contentTypeJson := false, body := none }
  | some (.jsonData o) =>
      { method := method, url := "/api" ++ path, acceptJson := true,
        contentTypeJson := true, body := some (.jsonData o) }
  | some (.formData f) =>
      { method := method, url := "/api" ++ path, acceptJson := true,
        contentTypeJson := false, body := some (.formData f) }

/-- `api.get(p)` issues `request(p, "GET")`. -/
def apiGetReq (p : String) : IssuedReq := buildReq p "GET" none

/-- `api.post(p, d)` issues `request(p, "POST", d)`; `d` may be omitted. -/
def apiPostReq (p : String) (d : Option ReqData) : IssuedReq := buildReq p "POST" d

/-! ## URL encoding

`encodeURIComponent`: unreserved characters (ASCII alphanumerics plus
hyphen, underscore, dot, bang, tilde, star, apostrophe and parentheses)
pass through; every other character is replaced by the uppercase-hex
percent-encoding of each byte of its UTF-8 form. -/

def uriUnreservedChar (c : Char) : Bool :=
  c.isAlphanum || c = '-' || c = '_' || c = '.' || c = '!' || c = '~' ||
    c = '*' || c = Char.ofNat 39 || c = '(' || c = ')'

def hexDigitUpper (n : Nat) : Char :=
  if n < 10 then Char.ofNat (48 + n) else Char.ofNat (55 + n)

def percentEncodeByte (b : Nat) : String :=
  String.mk ['%', hexDigitUpper (b / 16), hexDigitUpper (b % 16)]

def utf8BytesOfChar (c : Char) : List Nat :=
  let n := c.toNat
  if n < 128 then [n]
  else if n < 2048 then [192 + n / 64, 128 + n % 64]
  else if n < 65536 then [224 + n / 4096, 128 + (n / 64) % 64, 128 + n % 64]
  else [240 + n / 262144, 128 + (n / 4096) % 64, 128 + (n / 64) % 64, 128 + n % 64]

def encodeURIComponent (s : String) : String :=
  String.join (s.toList.map (fun c =>
    if uriUnreservedChar c then String.mk [c]
    else String.join ((utf8BytesOfChar c).map percentEncodeByte)))

/-! ## JavaScript falsy-fallback helpers -/

/-- JavaScript `x || d` for an optional string field: absent or empty
(falsy) falls back to `d`. -/
def jsOrString (e : Option String) (d : String) : String :=
  match e with
  | some s => if s = "" then d else s
  | none => d

/-- JavaScript `x || d` for an optional numeric field. -/
def jsOrInt (n : Option Int) (d : Int) : Int :=
  match n with
  | some m => if m = 0 then d else m
  | none => d

/-! ## CatalogController (src/static/js/api.js, DOMContentLoaded block) -/

/-- `loadProducts(q)` request path: the literal /products with the
query string ?q= followed by encodeURIComponent(q) appended only for a
truthy (non-empty) query. -/
def loadProductsPath (q : String) : String :=
  "/products" ++ (if q = "" then "" else "?q=" ++ encodeURIComponent q)

def loadProductsReq (q : String) : IssuedReq := apiGetReq (loadProductsPath q)

structure Product where
  id : String
  name : String
  price : Int
  category : Option String
  description : Option String
deriving DecidableEq, Repr

/-- Result payload of GET /products as used by `loadProducts`. -/
structure ProductsResult where
  ok : Bool
  products : Option (List Product)
deriving DecidableEq, Repr

/-- One rendered product card: the data interpolated into the card
markup (p.name, the category and description defaulted to the empty
string when falsy, the price with the currency sign, and the data-id on
the add-to-cart button). -/
structure ProductView where
  name : String
  categoryText : String
  descriptionText : String
  priceText : String
  addButtonId : String
deriving DecidableEq, Repr

def productView (p : Product) : ProductView :=
  { name := p.name,
    categoryText := jsOrString p.category "",
    descriptionText := jsOrString p.description "",
    priceText := toString p.price ++ "₽",
    addButtonId := p.id }

/-- `loadProducts` clears the grid and appends one card per element of
`res.products || []`. -/
def renderProducts (res : ProductsResult) : List ProductView :=
  (res.products.getD []).map productView

structure CartLine where
  product : Product
  quantity : Int
  subtotal : Int
deriving DecidableEq, Repr

/-- Result payload of GET /cart as used by `loadCart`. -/
structure CartResult where
  ok : Bool
  items : Option (List CartLine)
  total : Option Int
deriving DecidableEq, Repr

structure CartView where
  lines : List String
  totalText : String
deriving DecidableEq, Repr

def cartLineText (i : CartLine) : String :=
  i.product.name ++ " x " ++ toString i.quantity ++ " = " ++ toString i.subtotal ++ "₽"

/-- `loadCart` renders `res.items || []` as lines and the total line
from `res.total || 0`. -/
def renderCart (res : CartResult) : CartView :=
  { lines := (res.items.getD []).map cartLineText,
    totalText := "Итого: " ++ toString (jsOrInt res.total 0) ++ "₽" }

inductive CatalogEffect where
  | toast (msg : String)
  | reloadCart
deriving DecidableEq, Repr

/-- Result payload of POST /checkout as used by the checkout click
handler; the server contract types `error` as a string. -/
structure CheckoutResult where
  ok : Bool
  error : Option String
deriving DecidableEq, Repr

/-- The request issued by the checkout click handler:
api.post of /checkout with no data argument, hence no body. -/
def checkoutClickReq : IssuedReq := apiPostReq "/checkout" none

/-- The checkout click handler after the response arrives: on r.ok it
toasts the success message and reloads the cart, otherwise it toasts
r.error with the generic message as the falsy fallback. -/
def checkoutClickEffects (r : CheckoutResult) : List CatalogEffect :=
  if r.ok then [.toast "Заказ оформлен", .reloadCart]
  else [.toast (jsOrString r.error "Ошибка")]

/-! ## NotesController (src/static/js/dashboard.js) -/

structure Note where
  id : String
  title : String
  content : String
  tags : Option String
  updated_at : Option String
deriving DecidableEq, Repr

/-- The content preview computed per rendered note card:
truncate to the first 150 characters and append an ellipsis when the
content is longer than 150 characters, else the content verbatim. -/
def previewOf (content : String) : String :=
  if 150 < content.length then content.take 150 ++ "..." else content

/-- One rendered note card. `dateSource` is the optional `updated_at`
value fed to the locale date formatter; the code renders the empty
string when it is absent. The locale-formatted text itself is outside
every claim, so the card keeps the source value. -/
structure NoteCard where
  id : String
  title : String
  preview : String
  dateSource : Option String
deriving DecidableEq, Repr

def noteCardOf (n : Note) : NoteCard :=
  { id := n.id, title := n.title, preview := previewOf n.content,
    dateSource := n.updated_at }

/-- Result payload of GET /notes as used by `loadNotes`. -/
structure NotesResult where
  ok : Bool
  notes : Option (List Note)
deriving DecidableEq, Repr

inductive NotesView where
  | placeholder
  | cards (cards : List NoteCard)
deriving DecidableEq, Repr

/-- `loadNotes` rendering: when `res.notes` is absent or the list is
empty, the placeholder paragraph (Заметок пока нет) replaces the list;
otherwise one card per note. -/
def renderNotes (res : NotesResult) : NotesView :=
  match res.notes with
  | none => .placeholder
  | some ns => if ns.isEmpty then .placeholder else .cards (ns.map noteCardOf)

/-- `loadNotes(q)` request path, same query construction as
`loadProductsPath`. -/
def loadNotesPath (q : String) : String :=
  "/notes" ++ (if q = "" then "" else "?q=" ++ encodeURIComponent q)

def loadNotesReq (q : String) : IssuedReq := apiGetReq (loadNotesPath q)

/-! ### The editor state machine

State owned by the DOMContentLoaded closure: `editingId` (the let
binding), the modal visibility (the hidden/show classes; the staged
300 ms class swap is purely cosmetic, so visibility is one boolean), and
the three form fields of noteForm. `editFetched` is ghost state
recording the note list fetched by the most recent successful edit
click, so that the invariant can speak about the list the edited id was
located in. -/

structure NForm where
  title : String
  content : String
  tags : String
deriving DecidableEq, Repr

/-- `noteForm.reset()`: all fields back to their empty defaults. -/
def NForm.reset : NForm := { title := "", content := "", tags := "" }

structure NotesState where
  editingId : Option String
  modalOpen : Bool
  form : NForm
  editFetched : List Note
deriving DecidableEq, Repr

/-- Initial closure state: editingId null, modal hidden. -/
def initState : NotesState :=
  { editingId := none, modalOpen := false, form := NForm.reset, editFetched := [] }

/-- `closeModalFn`: hide the modal, null out `editingId`, reset the
form. -/
def closeModalFn (s : NotesState) : NotesState :=
  { s with modalOpen := false, editingId := none, form := NForm.reset }

/-- The events the wired handlers react to. `editClick` carries the
fresh note list the handler just fetched (`all.notes || []`);
`submitResult` carries whether the POST/PUT came back ok; `deleteClick`
carries the confirm-dialog answer and the DELETE outcome; `searchInput`
re-renders the list only. -/
inductive NEvent where
  | newNoteClick
  | editClick (id : String) (fetched : List Note)
  | closeClick
  | cancelClick
  | overlayClick
  | submitResult (serverOk : Bool)
  | deleteClick (id : String) (confirmed : Bool) (serverOk : Bool)
  | searchInput (q : String)
deriving DecidableEq, Repr

/-- One handler activation as a state transformer, mirroring the
source handlers:
- new-note click: null editingId, reset the form, open the modal;
- edit click: find the clicked id in the freshly fetched list; when
  found, set editingId, populate the form from the note (tags with the
  empty-string falsy fallback) and open the modal; when not found, do
  nothing;
- close button, cancel button and overlay click all call closeModalFn;
- submit: on an ok response closeModalFn (then a reload, which does not
  touch the editor state); on failure nothing;
- delete click and search input never touch the editor state. -/
def step (s : NotesState) : NEvent → NotesState
  | .newNoteClick => { s with editingId := none, form := NForm.reset, modalOpen := true }
  | .editClick id fetched =>
      match fetched.find? (fun x => x.id == id) with
      | some note =>
          { s with editingId := some id,
                   form := { title := note.title, content := note.content,
                             tags := jsOrString note.tags "" },
                   modalOpen := true,
                   editFetched := fetched }
      | none => s
  | .closeClick => closeModalFn s
  | .cancelClick => closeModalFn s
  | .overlayClick => closeModalFn s
  | .submitResult serverOk => if serverOk then closeModalFn s else s
  | .deleteClick _ _ _ => s
  | .searchInput _ => s

/-- States reachable from the initial closure state by any sequence of
handler activations. -/
inductive Reachable : NotesState → Prop where
  | init : Reachable initState
  | next (s : NotesState) (e : NEvent) : Reachable s → Reachable (step s e)

/-! ## Theorems -/

theorem getField_setField_same (o : JObj) (k : String) (v : JVal) :
    getField (setField o k v) k = some v := by
  induction o with
  | nil => simp [setField, getField]
  | cons hd tl ih =>
      obtain ⟨k', v'⟩ := hd
      by_cases h : k' = k
      · simp [setField, getField, h]
      · simp [setField, getField, h, ih]

theorem getField_setField_other (o : JObj) (k k' : String) (v : JVal)
    (h : k' ≠ k) : getField (setField o k v) k' = getField o k' := by
  induction o with
  | nil => simp [setField, getField, Ne.symm h]
  | cons hd tl ih =>
      obtain ⟨k₀, v₀⟩ := hd
      by_cases h0 : k₀ = k
      · subst h0
        simp [setField, getField, Ne.symm h]
      · simp [setField, getField, h0, ih]

/-- C1 counterexample: on a network failure (the fetch promise rejects),
`request` does NOT resolve to any Result object — the rejection escapes
to the caller, contradicting the claim that every such call still
resolves to a Result with ok:false. -/
theorem request_network_failure_rejects :
    ¬ ∃ out : JObj, request (Except.error ()) = Except.ok out := by
  intro h
  obtain ⟨out, hout⟩ := h
  simp [request] at hout

/-- C1 amended: a fetch rejection propagates out of `request` unhandled
(the call rejects rather than resolving), while every fetch that yields
an HTTP response — even one with an unparseable body — resolves to a
Result object. -/
theorem request_error_propagation :
    (∀ e : Unit, request (Except.error e) = Except.error e) ∧
    (∀ res : HttpResponse, ∃ out : JObj, request (Except.ok res) = Except.ok out) := by
  constructor
  · intro e; rfl
  · intro res
    exact ⟨setField (res.body.getD []) "ok" (.bool res.resOk), rfl⟩

/-- C2: for every received response, the Result's `ok` field is the
transport's own determination — `true` iff the HTTP status is in the
success range 200–299 — and it supersedes any same-named `ok` field in
the parsed payload, while every other payload field is preserved
unchanged in the Result. -/
theorem request_ok_field (res : HttpResponse) (out : JObj)
    (h : request (Except.ok res) = Except.ok out) :
    getField out "ok" = some (.bool res.resOk) ∧
    (res.resOk = true ↔ 200 ≤ res.status ∧ res.status ≤ 299) ∧
    (∀ k, k ≠ "ok" → getField out k = getField (res.body.getD []) k) := by
  have hout : out = setField (res.body.getD []) "ok" (.bool res.resOk) := by
    simpa [request] using h.symm
  subst hout
  refine ⟨getField_setField_same _ _ _, ?_, ?_⟩
  · simp [HttpResponse.resOk]
  · intro k hk
    exact getField_setField_other _ _ _ _ hk

/-- C2 witness: a 200 response whose payload already carries ok:false
and another field error — the transport ok:true supersedes the payload
ok, and error is preserved. -/
theorem request_ok_field_witness :
    getField (setField [("ok", JVal.bool false), ("error", JVal.str "boom")] "ok"
        (.bool (HttpResponse.resOk ⟨200, some [("ok", .bool false), ("error", .str "boom")]⟩)))
      "ok" = some (.bool true) ∧
    getField (setField [("ok", JVal.bool false), ("error", JVal.str "boom")] "ok"
        (.bool (HttpResponse.resOk ⟨200, some [("ok", .bool false), ("error", .str "boom")]⟩)))
      "error" = some (.str "boom") := by
  have h := request_ok_field ⟨200, some [("ok", .bool false), ("error", .str "boom")]⟩
    (setField [("ok", JVal.bool false), ("error", JVal.str "boom")] "ok"
      (.bool (HttpResponse.resOk ⟨200, some [("ok", .bool false), ("error", .str "boom")]⟩)))
    (by rfl)
  refine ⟨?_, ?_⟩
  · have := h.1
    simpa [HttpResponse.resOk] using this
  · have := h.2.2 "error" (by decide)
    simpa using this

/-- C3: for every response whose body is not valid JSON, `request` does
not throw: the parse failure is replaced by an empty-object payload, and
the call resolves to the well-formed Result holding only the transport
ok boolean. -/
theorem request_malformed_body (res : HttpResponse) (h : res.body = none) :
    request (Except.ok res) = Except.ok [("ok", .bool res.resOk)] := by
  simp [request, h, setField]

/-- C3 witness: a 500 response with an unparseable body resolves to the
one-field object with ok:false. -/
theorem request_malformed_body_witness :
    request (Except.ok ⟨500, none⟩) = Except.ok [("ok", .bool false)] := by
  have h := request_malformed_body ⟨500, none⟩ rfl
  simpa [HttpResponse.resOk] using h

/-- C7: for every non-empty query q, both loadProducts and loadNotes
issue a GET with no body whose URL is the respective list resource path
with the q parameter set to exactly the URL-encoding of q. -/
theorem search_query_encoding (q : String) (h : q ≠ "") :
    ((loadProductsReq q).method = "GET" ∧
     (loadProductsReq q).url = "/api/products?q=" ++ encodeURIComponent q ∧
     (loadProductsReq q).body = none) ∧
    ((loadNotesReq q).method = "GET" ∧
     (loadNotesReq q).url = "/api/notes?q=" ++ encodeURIComponent q ∧
     (loadNotesReq q).body = none) := by
  refine ⟨⟨rfl, ?_, rfl⟩, ⟨rfl, ?_, rfl⟩⟩
  · show "/api" ++ ("/products" ++ (if q = "" then "" else "?q=" ++ encodeURIComponent q)) =
      "/api/products?q=" ++ encodeURIComponent q
    rw [if_neg h, ← String.append_assoc, ← String.append_assoc]
    congr 1
  · show "/api" ++ ("/notes" ++ (if q = "" then "" else "?q=" ++ encodeURIComponent q)) =
      "/api/notes?q=" ++ encodeURIComponent q
    rw [if_neg h, ← String.append_assoc, ← String.append_assoc]
    congr 1

/-- C7 witness: the query "abc" (whose URL-encoding is itself) yields
the exact URLs of the spec example. -/
theorem search_query_encoding_witness :
    (loadProductsReq "abc").url = "/api/products?q=" ++ encodeURIComponent "abc" ∧
    (loadNotesReq "abc").url = "/api/notes?q=" ++ encodeURIComponent "abc" ∧
    encodeURIComponent "abc" = "abc" :=
  ⟨(search_query_encoding "abc" (by decide)).1.2.1,
   (search_query_encoding "abc" (by decide)).2.2.1,
   by decide⟩

/-- C8: the checkout handler posts to the checkout resource with no
body; on ok it notifies and reloads the cart; on failure it notifies
with the server-supplied error message when a (non-falsy) one is present
and with the generic failure message otherwise. -/
theorem checkout_behavior :
    (checkoutClickReq =
      { method := "POST", url := "/api/checkout", acceptJson := true,
        contentTypeJson := false, body := none }) ∧
    (∀ r : CheckoutResult, r.ok = true →
      checkoutClickEffects r = [.toast "Заказ оформлен", .reloadCart]) ∧
    (∀ (r : CheckoutResult) (e : String), r.ok = false → r.error = some e → e ≠ "" →
      checkoutClickEffects r = [.toast e]) ∧
    (∀ r : CheckoutResult, r.ok = false → (r.error = none ∨ r.error = some "") →
      checkoutClickEffects r = [.toast "Ошибка"]) := by
  refine ⟨rfl, ?_, ?_, ?_⟩
  · intro r hok; simp [checkoutClickEffects, hok]
  · intro r e hok herr hne
    simp [checkoutClickEffects, hok, herr, jsOrString, hne]
  · intro r hok herr
    rcases herr with h | h <;> simp [checkoutClickEffects, hok, h, jsOrString]

/-- C8 witness: concrete checkout results exercising each branch of the
handler. -/
theorem checkout_behavior_witness :
    checkoutClickEffects ⟨true, none⟩ = [.toast "Заказ оформлен", .reloadCart] ∧
    checkoutClickEffects ⟨false, some "нет средств"⟩ = [.toast "нет средств"] ∧
    checkoutClickEffects ⟨false, none⟩ = [.toast "Ошибка"] :=
  ⟨checkout_behavior.2.1 ⟨true, none⟩ rfl,
   checkout_behavior.2.2.1 ⟨false, some "нет средств"⟩ "нет средств" rfl rfl (by decide),
   checkout_behavior.2.2.2 ⟨false, none⟩ rfl (Or.inl rfl)⟩

/-- C9: when the expected list field is absent from the payload, every
list loader still renders a well-defined empty view (the renderers are
total Lean functions, so nothing can throw): loadProducts renders zero
cards, loadCart renders zero lines and a total of 0, loadNotes renders
the no-notes placeholder. -/
theorem loaders_total_on_missing_fields :
    (∀ res : ProductsResult, res.products = none → renderProducts res = []) ∧
    (∀ res : CartResult, res.items = none → res.total = none →
      renderCart res = { lines := [], totalText := "Итого: 0₽" }) ∧
    (∀ res : NotesResult, res.notes = none → renderNotes res = NotesView.placeholder) := by
  refine ⟨?_, ?_, ?_⟩
  · intro res h; simp [renderProducts, h]
  · intro res hi ht
    simp only [renderCart, hi, ht, Option.getD_none, List.map_nil, jsOrInt]
    rfl
  · intro res h; simp [renderNotes, h]

/-- C9 witness: the empty-object payload (as produced for a malformed
or failed response) rendered by all three loaders. -/
theorem loaders_total_on_missing_fields_witness :
    renderProducts ⟨false, none⟩ = [] ∧
    renderCart ⟨false, none, none⟩ = { lines := [], totalText := "Итого: 0₽" } ∧
    renderNotes ⟨false, none⟩ = NotesView.placeholder :=
  ⟨loaders_total_on_missing_fields.1 ⟨false, none⟩ rfl,
   loaders_total_on_missing_fields.2.1 ⟨false, none, none⟩ rfl rfl,
   loaders_total_on_missing_fields.2.2 ⟨false, none⟩ rfl⟩

/-- C6: the rendered preview is the first 150 characters followed by an
ellipsis exactly when the content is longer than 150 characters, and the
content verbatim otherwise. -/
theorem preview_truncation (content : String) :
    (150 < content.length → previewOf content = content.take 150 ++ "...") ∧
    (content.length ≤ 150 → previewOf content = content) ∧
    (previewOf content = content.take 150 ++ "..." → 150 < content.length) := by
  refine ⟨?_, ?_, ?_⟩
  · intro h; simp [previewOf, h]
  · intro h; simp [previewOf, Nat.not_lt.mpr h]
  · intro h
    by_contra hle
    push_neg at hle
    have hpeq : previewOf content = content := by
      simp [previewOf, Nat.not_lt.mpr hle]
    rw [hpeq] at h
    have hlen := congrArg String.length h
    rw [String.length_append] at hlen
    have htake : (content.take 150).length = min 150 content.length := by
      rw [String.take_eq]; simp only [String.length, List.length_take]
    rw [htake, Nat.min_eq_right hle] at hlen
    have hdots : ("..." : String).length = 3 := rfl
    rw [hdots] at hlen
    omega

set_option maxRecDepth 4000 in
/-- C6 witness: a 151-character content is truncated with the ellipsis;
a short content passes through verbatim. -/
theorem preview_truncation_witness :
    previewOf (String.mk (List.replicate 151 'a')) =
      (String.mk (List.replicate 151 'a')).take 150 ++ "..." ∧
    previewOf "короткая" = "короткая" :=
  ⟨(preview_truncation (String.mk (List.replicate 151 'a'))).1 (by decide),
   (preview_truncation "короткая").2.1 (by decide)⟩

/-- C4: in every reachable state of the notes editor, editingId is null
whenever the modal is closed (hence also right after the new-note
transition, which nulls it while opening), and whenever editingId holds
an id the modal is open and the id belongs to a note of the list the
edit handler fetched. -/
theorem editor_invariant (s : NotesState) (h : Reachable s) :
    (s.modalOpen = false → s.editingId = none) ∧
    (∀ id, s.editingId = some id →
      s.modalOpen = true ∧ ∃ n ∈ s.editFetched, n.id = id) := by
  induction h with
  | init => simp [initState]
  | next s e hs ih =>
      cases e with
      | newNoteClick =>
          refine ⟨fun _ => rfl, fun id hid => ?_⟩
          simp [step] at hid
      | editClick id fetched =>
          cases hfind : fetched.find? (fun x => x.id == id) with
          | none =>
              have hstep : step s (.editClick id fetched) = s := by
                simp [step, hfind]
              rw [hstep]; exact ih
          | some note =>
              have hstep : step s (.editClick id fetched) =
                  { s with editingId := some id,
                           form := { title := note.title, content := note.content,
                                     tags := jsOrString note.tags "" },
                           modalOpen := true, editFetched := fetched } := by
                simp [step, hfind]
              rw [hstep]
              refine ⟨fun hmo => by simp at hmo, fun id' hid' => ?_⟩
              simp only at hid'
              have hid'' : id = id' := by simpa using hid'
              subst hid''
              refine ⟨rfl, note, List.mem_of_find?_eq_some hfind, ?_⟩
              have := List.find?_some hfind
              simpa using this
      | closeClick =>
          exact ⟨fun _ => rfl, fun id hid => by simp [step, closeModalFn] at hid⟩
      | cancelClick =>
          exact ⟨fun _ => rfl, fun id hid => by simp [step, closeModalFn] at hid⟩
      | overlayClick =>
          exact ⟨fun _ => rfl, fun id hid => by simp [step, closeModalFn] at hid⟩
      | submitResult serverOk =>
          cases serverOk with
          | true =>
              exact ⟨fun _ => rfl, fun id hid => by simp [step, closeModalFn] at hid⟩
          | false => simpa [step] using ih
      | deleteClick id confirmed serverOk => simpa [step] using ih
      | searchInput q => simpa [step] using ih

/-- C4 witness: after an edit click on id 1 located in a fetched
singleton list, the invariant instantiates to: the modal is open and
id 1 is in the recorded fetched list. -/
theorem editor_invariant_witness :
    (step initState (NEvent.editClick "1"
        [{ id := "1", title := "t", content := "c", tags := none, updated_at := none }])).modalOpen
      = true ∧
    ∃ n ∈ (step initState (NEvent.editClick "1"
        [{ id := "1", title := "t", content := "c", tags := none, updated_at := none }])).editFetched,
      n.id = "1" :=
  (editor_invariant _ (Reachable.next initState _ Reachable.init)).2 "1" (by decide)

/-- C5: each of the four closing triggers — close button, cancel
button, overlay click, successful submit — leaves the modal closed with
editingId null and the form reset, from any state. -/
theorem close_transitions_reset (s : NotesState) (e : NEvent)
    (h : e = NEvent.closeClick ∨ e = NEvent.cancelClick ∨ e = NEvent.overlayClick ∨
         e = NEvent.submitResult true) :
    (step s e).modalOpen = false ∧ (step s e).editingId = none ∧
    (step s e).form = NForm.reset := by
  rcases h with h | h | h | h <;> subst h <;> simp [step, closeModalFn]

/-- C5 witness: the cancel button pressed in an open edit session with
a dirty form. -/
theorem close_transitions_reset_witness :
    (step { editingId := some "7", modalOpen := true,
            form := { title := "t", content := "c", tags := "x" },
            editFetched := [] } NEvent.cancelClick).modalOpen = false ∧
    (step { editingId := some "7", modalOpen := true,
            form := { title := "t", content := "c", tags := "x" },
            editFetched := [] } NEvent.cancelClick).editingId = none ∧
    (step { editingId := some "7", modalOpen := true,
            form := { title := "t", content := "c", tags := "x" },
            editFetched := [] } NEvent.cancelClick).form = NForm.reset :=
  close_transitions_reset _ _ (Or.inr (Or.inl rfl))

/-- C10: an edit click whose id matches no note of the freshly fetched
list changes nothing at all: the whole controller state — editingId,
modal visibility, form fields — is exactly what it was. -/
theorem edit_unknown_id_no_change (s : NotesState) (id : String) (fetched : List Note)
    (h : ∀ n ∈ fetched, n.id ≠ id) :
    step s (NEvent.editClick id fetched) = s := by
  have hf : fetched.find? (fun x => x.id == id) = none := by
    apply List.find?_eq_none.mpr
    intro n hn
    simpa using h n hn
  simp [step, hf]

/-- C10 witness: an edit click on id 9 while only a note with id 1 was
fetched, from an open new-note composition state. -/
theorem edit_unknown_id_no_change_witness :
    step { editingId := none, modalOpen := true, form := NForm.reset, editFetched := [] }
        (NEvent.editClick "9"
          [{ id := "1", title := "t", content := "c", tags := none, updated_at := none }]) =
      { editingId := none, modalOpen := true, form := NForm.reset, editFetched := [] } :=
  edit_unknown_id_no_change _ "9"
    [{ id := "1", title := "t", content := "c", tags := none, updated_at := none }]
    (by decide)

end NoteCart
